import Mathlib

/-!
Shallow embedding of the SimpleTimer library (src/index.ts).

The embedding models, straight from the source:
* the status constants and the timer record (`TimerStatus`, `TimerInstance`);
* the process-wide registry `Timers`, a string-keyed map — `mapSet`, `mapGet`
  and `mapDelete` mirror JavaScript Map.set / Map.get / Map.delete;
* the lifecycle methods `CreateTimer`, `Start`, `Pause`, `Resume`, `Stop`,
  `Destroy`, `Copy` and the tick loop `run`;
* observable effects as an ordered event trace (`Ev`), listed in the order the
  corresponding statements execute in the source.

Numbers are rationals.  `BindableEvent.Fire` on `statusChanged` takes no
payload in the source; the `statusChangedFire` event records the timer's
`Status` field at the moment of the call, which is exactly what a synchronous
subscriber reads during delivery.  The `timerThread` field abstracts the
thread handle to present/absent, and the `...Alive` flags record whether each
BindableEvent instance has been destroyed.  The `id` field is a ghost field
giving each created timer object its identity (creation order), standing in
for reference identity of the JavaScript object.  `run` takes a fuel bound on
the number of while-loop iterations, the standard device for embedding a
while loop as a total function; theorems supply sufficient fuel.
-/

namespace SimpleTimer

/-- The status values of the TIMER_STATUSES constant (src/index.ts lines 7-13). -/
inductive TimerStatus where
  | started
  | completed
  | paused
  | running
  | stopped
  deriving DecidableEq, Repr

/-- The three BindableEvent channels owned by a timer. -/
inductive Chan where
  | onTickC
  | statusChangedC
  | completedC
  deriving DecidableEq, Repr

/-- One observable effect, in source execution order:
`wait` is the suspension of `task.wait(timer.Tick)`; `tickFire`,
`statusChangedFire` and `completedFire` are the BindableEvent Fire calls
(`statusChangedFire` records the `Status` field visible to subscribers at the
moment of the call); `spawn` is `task.spawn`; `cancelThread` is `task.cancel`;
`yieldThread` is the `coroutine.yield(timer.timerThread)` call in `Destroy`;
`destroyChannel` is a BindableEvent `Destroy()` call; `mapDelete` is
`Timers.delete`; `printMsg` carries the timer name from the `print` call. -/
inductive Ev where
  | wait (t : Rat)
  | tickFire (r : Rat)
  | statusChangedFire (s : TimerStatus)
  | completedFire
  | spawn
  | cancelThread
  | yieldThread
  | destroyChannel (c : Chan)
  | mapDelete (n : String)
  | printMsg (n : String)
  deriving DecidableEq, Repr

/-- The mutable timer object (type `TimerInstance`, src/index.ts lines 18-34).
The bound closure fields Start/Pause/Resume/Stop/Destroy are represented by
the module-level functions below applied to this record. -/
structure TimerInstance where
  id : Nat
  Name : String
  Duration : Rat
  Tick : Rat
  RemainingTime : Rat
  AutoDestroy : Bool
  Status : TimerStatus
  completedAlive : Bool
  statusChangedAlive : Bool
  onTickAlive : Bool
  timerThread : Bool
  deriving DecidableEq, Repr

/-- The `timerData` argument of `CreateTimer` (src/index.ts line 46):
`Tick` and `AutoDestroy` are optional. -/
structure TimerData where
  Name : String
  Duration : Rat
  Tick : Option Rat
  AutoDestroy : Option Bool
  deriving DecidableEq, Repr

/-- JavaScript `x || d` for an optional number `x`: `undefined` and `0` are
falsy, any other number is truthy. -/
def jsOrNum : Option Rat → Rat → Rat
  | none, d => d
  | some x, d => if x = 0 then d else x

/-- JavaScript `x || d` for an optional boolean `x`: `undefined` and `false`
are falsy. -/
def jsOrBool : Option Bool → Bool → Bool
  | none, d => d
  | some x, d => if x then x else d

/-- JavaScript `Map.get`: lookup by key. -/
def mapGet {α β : Type} [DecidableEq α] : List (α × β) → α → Option β
  | [], _ => none
  | (k, v) :: rest, a => if k = a then some v else mapGet rest a

/-- JavaScript `Map.set`: overwrite the entry with the given key in place, or
append a fresh entry. -/
def mapSet {α β : Type} [DecidableEq α] : List (α × β) → α → β → List (α × β)
  | [], a, b => [(a, b)]
  | (k, v) :: rest, a, b => if k = a then (a, b) :: rest else (k, v) :: mapSet rest a b

/-- JavaScript `Map.delete`: remove the entry with the given key. -/
def mapDelete {α β : Type} [DecidableEq α] : List (α × β) → α → List (α × β)
  | [], _ => []
  | (k, v) :: rest, a => if k = a then mapDelete rest a else (k, v) :: mapDelete rest a

/-- The registry `Timers` (src/index.ts line 16): a map from name to timer. -/
abbrev Registry := List (String × TimerInstance)

/-- The timer literal built by `CreateTimer` (src/index.ts lines 51-78):
`Tick: Tick || 1`, `RemainingTime: Duration`, `AutoDestroy: AutoDestroy || true`,
initial status Stopped, three live BindableEvents, no thread. -/
def mkTimer (id : Nat) (d : TimerData) : TimerInstance :=
  { id := id
    Name := d.Name
    Duration := d.Duration
    Tick := jsOrNum d.Tick 1
    RemainingTime := d.Duration
    AutoDestroy := jsOrBool d.AutoDestroy true
    Status := TimerStatus.stopped
    completedAlive := true
    statusChangedAlive := true
    onTickAlive := true
    timerThread := false }

/-- Process-wide state: the registry plus the ghost allocation data (`nextId`
is the next object identity, `created` records every timer object ever built,
keyed by identity; names are immutable so the creation-time snapshot carries
the name `Destroy` deletes by). -/
structure SysState where
  nextId : Nat
  Timers : Registry
  created : List (Nat × TimerInstance)
  deriving DecidableEq, Repr

/-- The empty initial state: no timer ever created. -/
def sysInit : SysState :=
  { nextId := 0, Timers := [], created := [] }

/-- `CreateTimer` (src/index.ts lines 46-82): on the client it throws
"Timers have to be created on the server" before touching anything; on the
server it builds the timer literal, registers it under its name
(`Timers.set(Name, timer)`, line 80) and returns it. -/
def CreateTimer (isServer : Bool) (st : SysState) (d : TimerData) :
    SysState × Except String TimerInstance :=
  if !isServer then
    (st, Except.error "Timers have to be created on the server")
  else
    ({ nextId := st.nextId + 1
       Timers := mapSet st.Timers d.Name (mkTimer st.nextId d)
       created := (st.nextId, mkTimer st.nextId d) :: st.created },
     Except.ok (mkTimer st.nextId d))

/-- `Start` (src/index.ts lines 85-90): no-op if already Running, else set
Running, spawn the tick loop, fire statusChanged. -/
def Start (t : TimerInstance) : TimerInstance × List Ev :=
  if t.Status = TimerStatus.running then (t, [])
  else
    ({ t with Status := TimerStatus.running, timerThread := true },
     [Ev.spawn, Ev.statusChangedFire TimerStatus.running])

/-- `Pause` (src/index.ts lines 93-103): no-op unless Running, else set
Paused, fire statusChanged, then cancel the timer thread if present. -/
def Pause (t : TimerInstance) : TimerInstance × List Ev :=
  if t.Status ≠ TimerStatus.running then (t, [])
  else
    if t.timerThread then
      ({ t with Status := TimerStatus.paused, timerThread := false },
       [Ev.statusChangedFire TimerStatus.paused, Ev.cancelThread])
    else
      ({ t with Status := TimerStatus.paused },
       [Ev.statusChangedFire TimerStatus.paused])

/-- `Resume` (src/index.ts lines 106-111): no-op unless Paused, else set
Running, spawn the tick loop, fire statusChanged. -/
def Resume (t : TimerInstance) : TimerInstance × List Ev :=
  if t.Status ≠ TimerStatus.paused then (t, [])
  else
    ({ t with Status := TimerStatus.running, timerThread := true },
     [Ev.spawn, Ev.statusChangedFire TimerStatus.running])

/-- `Stop` (src/index.ts lines 114-125): no-op if already Stopped, else set
Stopped, reset RemainingTime to Duration, fire statusChanged, then cancel the
timer thread if present. -/
def Stop (t : TimerInstance) : TimerInstance × List Ev :=
  if t.Status = TimerStatus.stopped then (t, [])
  else
    if t.timerThread then
      ({ t with Status := TimerStatus.stopped, RemainingTime := t.Duration,
                timerThread := false },
       [Ev.statusChangedFire TimerStatus.stopped, Ev.cancelThread])
    else
      ({ t with Status := TimerStatus.stopped, RemainingTime := t.Duration },
       [Ev.statusChangedFire TimerStatus.stopped])

/-- `Destroy` (src/index.ts lines 128-145), unguarded: set Stopped; destroy
the `completed` and `statusChanged` BindableEvents (the source never
destroys `onTick`).  Then, if a thread is held, the call executes
`coroutine.yield(timer.timerThread)` — in Luau `coroutine.yield` suspends
the CURRENT coroutine (its argument is merely a value handed to the
resumer), and nothing in this program ever resumes the parked coroutine —
so the call parks forever there: `task.cancel`, the clearing of
`timerThread`, `Timers.delete` and the `print` are unreachable, the
registry keeps its entry, the thread field keeps the old loop's handle, and
the method never returns.  Only when no thread is held does the guard on
line 136 skip the yield, and the call reaches `Timers.delete`, prints, and
returns.  The final Bool records whether Destroy ran to completion
(`true`) or parked at the yield (`false`); the trace lists the effects that
actually execute, in source order. -/
def Destroy (t : TimerInstance) (reg : Registry) :
    TimerInstance × Registry × List Ev × Bool :=
  if t.timerThread then
    ({ t with Status := TimerStatus.stopped, completedAlive := false,
              statusChangedAlive := false },
     reg,
     [Ev.destroyChannel Chan.completedC, Ev.destroyChannel Chan.statusChangedC,
      Ev.yieldThread],
     false)
  else
    ({ t with Status := TimerStatus.stopped, completedAlive := false,
              statusChangedAlive := false },
     mapDelete reg t.Name,
     [Ev.destroyChannel Chan.completedC, Ev.destroyChannel Chan.statusChangedC,
      Ev.mapDelete t.Name, Ev.printMsg t.Name],
     true)

/-- `Copy` (src/index.ts lines 147-175): a fresh object (new identity) with
the name suffixed by "_copy", the same Duration/Tick/RemainingTime/AutoDestroy
and — verbatim — the same Status, fresh live BindableEvents, no thread, and
no registration in the registry. -/
def Copy (t : TimerInstance) (freshId : Nat) : TimerInstance :=
  { id := freshId
    Name := t.Name ++ "_copy"
    Duration := t.Duration
    Tick := t.Tick
    RemainingTime := t.RemainingTime
    AutoDestroy := t.AutoDestroy
    Status := t.Status
    completedAlive := true
    statusChangedAlive := true
    onTickAlive := true
    timerThread := false }

/-- The while loop of `run` (src/index.ts lines 179-185), fuel-bounded:
while RemainingTime > 0 and Status is Running — wait one Tick, fire onTick
with the remaining time before decrementing, decrement, and break if the
status is no longer Running. -/
def runLoop : Nat → TimerInstance → TimerInstance × List Ev
  | 0, t => (t, [])
  | Nat.succ fuel, t =>
    if 0 < t.RemainingTime ∧ t.Status = TimerStatus.running then
      if ({ t with RemainingTime := t.RemainingTime - t.Tick } : TimerInstance).Status
          ≠ TimerStatus.running then
        ({ t with RemainingTime := t.RemainingTime - t.Tick },
         [Ev.wait t.Tick, Ev.tickFire t.RemainingTime])
      else
        ((runLoop fuel { t with RemainingTime := t.RemainingTime - t.Tick }).1,
         Ev.wait t.Tick :: Ev.tickFire t.RemainingTime ::
           (runLoop fuel { t with RemainingTime := t.RemainingTime - t.Tick }).2)
    else (t, [])

/-- `run` (src/index.ts lines 178-199): the while loop, then — if the
remaining time is exhausted while still Running — set Completed, fire
`completed`, fire `statusChanged`, fire a final `onTick` with the current
(unclamped) remaining time, and finally call `Destroy` when AutoDestroy is
set.  The Destroy call is the last statement of `run`, so whether that call
returns or parks at its yield, nothing further executes in this thread
either way. -/
def run (fuel : Nat) (t : TimerInstance) (reg : Registry) :
    TimerInstance × Registry × List Ev :=
  if (runLoop fuel t).1.RemainingTime ≤ 0 ∧
      (runLoop fuel t).1.Status = TimerStatus.running then
    if ({ (runLoop fuel t).1 with Status := TimerStatus.completed } : TimerInstance).AutoDestroy then
      ((Destroy { (runLoop fuel t).1 with Status := TimerStatus.completed } reg).1,
       (Destroy { (runLoop fuel t).1 with Status := TimerStatus.completed } reg).2.1,
       (runLoop fuel t).2
         ++ [Ev.completedFire, Ev.statusChangedFire TimerStatus.completed,
             Ev.tickFire (runLoop fuel t).1.RemainingTime]
         ++ (Destroy { (runLoop fuel t).1 with Status := TimerStatus.completed } reg).2.2.1)
    else
      ({ (runLoop fuel t).1 with Status := TimerStatus.completed }, reg,
       (runLoop fuel t).2
         ++ [Ev.completedFire, Ev.statusChangedFire TimerStatus.completed,
             Ev.tickFire (runLoop fuel t).1.RemainingTime])
  else ((runLoop fuel t).1, reg, (runLoop fuel t).2)

/-- The continuation of one tick-loop iteration from its `task.wait`
suspension point (src/index.ts lines 180-185): when the loop thread wakes
from the wait it fires onTick with the pre-decrement remaining time,
decrements, and then — if the status is no longer Running, as after a
lifecycle method changed it while the thread slept — breaks out of the
loop without firing completion; otherwise the while loop carries on as
`runLoop`. -/
def resumeIteration (fuel : Nat) (t : TimerInstance) : TimerInstance × List Ev :=
  if ({ t with RemainingTime := t.RemainingTime - t.Tick } : TimerInstance).Status
      ≠ TimerStatus.running then
    ({ t with RemainingTime := t.RemainingTime - t.Tick },
     [Ev.tickFire t.RemainingTime])
  else
    ((runLoop fuel { t with RemainingTime := t.RemainingTime - t.Tick }).1,
     Ev.tickFire t.RemainingTime ::
       (runLoop fuel { t with RemainingTime := t.RemainingTime - t.Tick }).2)

/-! ### Observation helpers on traces -/

/-- Payload values of the onTick fires in a trace, in order. -/
def tickPayloads (evs : List Ev) : List Rat :=
  evs.filterMap fun e => match e with | Ev.tickFire r => some r | _ => none

/-- Number of suspensions (task.wait calls) in a trace. -/
def countWaits (evs : List Ev) : Nat :=
  evs.countP fun e => match e with | Ev.wait _ => true | _ => false

/-- Number of onCompleted fires in a trace. -/
def countCompleted (evs : List Ev) : Nat :=
  evs.countP fun e => match e with | Ev.completedFire => true | _ => false

/-- Whether an event is a Fire on one of the three notification channels. -/
def isFireEvent : Ev → Bool
  | Ev.tickFire _ => true
  | Ev.statusChangedFire _ => true
  | Ev.completedFire => true
  | _ => false

/-- Whether an event is an onTick or onCompleted Fire. -/
def isTickOrCompletedFire : Ev → Bool
  | Ev.tickFire _ => true
  | Ev.completedFire => true
  | _ => false

/-- True exactly when the trace contains a thread cancellation occurring
before every statusChanged publication (false when it has no cancellation:
then the cancellation certainly did not occur before the state change). -/
def cancelBeforeStatusChange : List Ev → Bool
  | [] => false
  | Ev.cancelThread :: _ => true
  | Ev.statusChangedFire _ :: _ => false
  | _ :: rest => cancelBeforeStatusChange rest

/-- The arithmetic progression r, r - tk, r - 2*tk, ... of length n: the
remaining-time values the spec expects onTick to report. -/
def tickSeq : Nat → Rat → Rat → List Rat
  | 0, _, _ => []
  | Nat.succ n, r, tk => r :: tickSeq n (r - tk) tk

/-- The trace the tick loop produces over n uninterrupted iterations started
at remaining time r: each iteration suspends for tk and then fires onTick
with the value held before the decrement. -/
def loopTrace : Nat → Rat → Rat → List Ev
  | 0, _, _ => []
  | Nat.succ n, r, tk => Ev.wait tk :: Ev.tickFire r :: loopTrace n (r - tk) tk

/-- Number of iterations of the tick loop started at remaining time r with
tick interval tk > 0: the ceiling of r / tk, clamped to 0 from below. -/
def ceilTicks (r tk : Rat) : Nat := (Int.ceil (r / tk)).toNat

/-- Start a timer and let its tick loop run to completion with no external
interference, with exactly enough fuel for the whole loop. -/
def uninterruptedRun (t : TimerInstance) (reg : Registry) :
    TimerInstance × Registry × List Ev :=
  run (ceilTicks t.Duration t.Tick) (Start t).1 reg

/-- Full event trace of `Start` followed by the uninterrupted tick loop. -/
def uninterruptedTrace (t : TimerInstance) (reg : Registry) : List Ev :=
  (Start t).2 ++ (uninterruptedRun t reg).2.2

/-! ### Map lemmas -/

theorem mapGet_mapSet_self {α β : Type} [DecidableEq α] (m : List (α × β)) (k : α) (v : β) :
    mapGet (mapSet m k v) k = some v := by
  induction m with
  | nil => simp [mapSet, mapGet]
  | cons p rest ih =>
    obtain ⟨a, b⟩ := p
    by_cases h : a = k <;> simp [mapSet, mapGet, h, ih]

theorem mapGet_mapSet_ne {α β : Type} [DecidableEq α] (m : List (α × β)) (k n : α) (v : β)
    (h : k ≠ n) : mapGet (mapSet m k v) n = mapGet m n := by
  induction m with
  | nil => simp [mapSet, mapGet, h]
  | cons p rest ih =>
    obtain ⟨a, b⟩ := p
    by_cases ha : a = k
    · subst ha
      simp [mapSet, mapGet, h]
    · simp [mapSet, mapGet, ha, ih]

theorem mapGet_mapDelete_self {α β : Type} [DecidableEq α] (m : List (α × β)) (k : α) :
    mapGet (mapDelete m k) k = none := by
  induction m with
  | nil => simp [mapDelete, mapGet]
  | cons p rest ih =>
    obtain ⟨a, b⟩ := p
    by_cases h : a = k <;> simp [mapDelete, mapGet, h, ih]

theorem mapGet_mapDelete_ne {α β : Type} [DecidableEq α] (m : List (α × β)) (k n : α)
    (h : k ≠ n) : mapGet (mapDelete m k) n = mapGet m n := by
  induction m with
  | nil => simp [mapDelete, mapGet]
  | cons p rest ih =>
    obtain ⟨a, b⟩ := p
    by_cases ha : a = k
    · subst ha
      simp [mapDelete, mapGet, h, ih]
    · simp [mapDelete, mapGet, ha, ih]

theorem mapGet_mapDelete_some {α β : Type} [DecidableEq α] {m : List (α × β)} {k n : α} {v : β}
    (h : mapGet (mapDelete m k) n = some v) : mapGet m n = some v ∧ n ≠ k := by
  have hk : n ≠ k := by
    rintro rfl
    rw [mapGet_mapDelete_self] at h
    exact Option.noConfusion h
  rw [mapGet_mapDelete_ne m k n (Ne.symm hk)] at h
  exact ⟨h, hk⟩

theorem mapGet_mapSet_some {α β : Type} [DecidableEq α] {m : List (α × β)} {k n : α} {v w : β}
    (h : mapGet (mapSet m k v) n = some w) : (n = k ∧ w = v) ∨ mapGet m n = some w := by
  by_cases hk : n = k
  · subst hk
    rw [mapGet_mapSet_self] at h
    exact Or.inl ⟨rfl, (Option.some_inj.mp h).symm⟩
  · rw [mapGet_mapSet_ne m k n v (Ne.symm hk)] at h
    exact Or.inr h

/-! ### Tick-loop lemmas -/

theorem runLoop_of_guard_false (fuel : Nat) (t : TimerInstance)
    (h : ¬ (0 < t.RemainingTime ∧ t.Status = TimerStatus.running)) :
    runLoop fuel t = (t, []) := by
  cases fuel <;> simp [runLoop, h]

theorem runLoop_spec : ∀ (k fuel : Nat) (t : TimerInstance),
    t.Status = TimerStatus.running → 0 < t.Tick →
    (Int.ceil (t.RemainingTime / t.Tick)).toNat = k → k ≤ fuel →
    runLoop fuel t
      = ({ t with RemainingTime := t.RemainingTime - (k : Rat) * t.Tick },
         loopTrace k t.RemainingTime t.Tick) := by
  intro k
  induction k with
  | zero =>
    intro fuel t hst htk hceil _
    have hle : t.RemainingTime / t.Tick ≤ ((0 : Int) : Rat) := by
      refine Int.ceil_le.mp ?_
      omega
    have hR : t.RemainingTime ≤ 0 := by
      by_contra h
      push_neg at h
      have := div_pos h htk
      push_cast at hle
      linarith
    rw [runLoop_of_guard_false fuel t (by rintro ⟨h1, _⟩; linarith)]
    have : t.RemainingTime - ((0 : Nat) : Rat) * t.Tick = t.RemainingTime := by
      push_cast
      ring
    rw [this]
    rfl
  | succ k ih =>
    intro fuel t hst htk hceil hfuel
    cases fuel with
    | zero => omega
    | succ f =>
      have hceq : Int.ceil (t.RemainingTime / t.Tick) = (k : Int) + 1 := by omega
      have hR : 0 < t.RemainingTime := by
        have h1 : 0 < t.RemainingTime / t.Tick := Int.ceil_pos.mp (by omega)
        rcases div_pos_iff.mp h1 with ⟨h2, _⟩ | ⟨_, h3⟩
        · exact h2
        · linarith
      have hsub : ((t.RemainingTime - t.Tick) / t.Tick) = t.RemainingTime / t.Tick - 1 := by
        rw [sub_div, div_self (ne_of_gt htk)]
      have hceil1 : (Int.ceil ((t.RemainingTime - t.Tick) / t.Tick)).toNat = k := by
        rw [hsub, Int.ceil_sub_one, hceq]
        omega
      have ihx := ih f { t with RemainingTime := t.RemainingTime - t.Tick }
        (by simpa using hst) (by simpa using htk) (by simpa using hceil1) (by omega)
      have hnr : ¬ (({ t with RemainingTime := t.RemainingTime - t.Tick } :
          TimerInstance).Status ≠ TimerStatus.running) := by
        simp [hst]
      have hunfold : runLoop (f + 1) t
          = ((runLoop f { t with RemainingTime := t.RemainingTime - t.Tick }).1,
             Ev.wait t.Tick :: Ev.tickFire t.RemainingTime ::
               (runLoop f { t with RemainingTime := t.RemainingTime - t.Tick }).2) := by
        rw [runLoop]
        rw [if_pos ⟨hR, hst⟩, if_neg hnr]
      rw [hunfold, ihx]
      simp only [Prod.mk.injEq]
      refine ⟨?_, ?_⟩
      · simp only [TimerInstance.mk.injEq, and_true, true_and]
        push_cast
        ring
      · simp [loopTrace]

theorem tickPayloads_append (a b : List Ev) :
    tickPayloads (a ++ b) = tickPayloads a ++ tickPayloads b := by
  simp [tickPayloads]

theorem countWaits_append (a b : List Ev) :
    countWaits (a ++ b) = countWaits a + countWaits b := by
  simp [countWaits, List.countP_append]

theorem countCompleted_append (a b : List Ev) :
    countCompleted (a ++ b) = countCompleted a + countCompleted b := by
  simp [countCompleted, List.countP_append]

theorem tickPayloads_loopTrace : ∀ (n : Nat) (r tk : Rat),
    tickPayloads (loopTrace n r tk) = tickSeq n r tk := by
  intro n
  induction n with
  | zero => intro r tk; simp [loopTrace, tickSeq, tickPayloads]
  | succ n ih =>
    intro r tk
    have hx := ih (r - tk) tk
    simp [loopTrace, tickSeq, tickPayloads] at hx ⊢
    exact hx

theorem countWaits_loopTrace : ∀ (n : Nat) (r tk : Rat),
    countWaits (loopTrace n r tk) = n := by
  intro n
  induction n with
  | zero => intro r tk; simp [loopTrace, countWaits]
  | succ n ih =>
    intro r tk
    have hx := ih (r - tk) tk
    simp [loopTrace, countWaits] at hx ⊢
    exact hx

theorem countCompleted_loopTrace : ∀ (n : Nat) (r tk : Rat),
    countCompleted (loopTrace n r tk) = 0 := by
  intro n
  induction n with
  | zero => intro r tk; simp [loopTrace, countCompleted]
  | succ n ih =>
    intro r tk
    have hx := ih (r - tk) tk
    simp [loopTrace, countCompleted] at hx ⊢
    exact hx

theorem tickSeq_snoc : ∀ (n : Nat) (r tk : Rat),
    tickSeq (n + 1) r tk = tickSeq n r tk ++ [r - (n : Rat) * tk] := by
  intro n
  induction n with
  | zero => intro r tk; simp [tickSeq]
  | succ n ih =>
    intro r tk
    have h1 : tickSeq (n + 1 + 1) r tk = r :: tickSeq (n + 1) (r - tk) tk := by
      simp [tickSeq]
    rw [h1, ih (r - tk) tk]
    have h2 : r - tk - (n : Rat) * tk = r - ((n : Nat) + 1 : Rat) * tk := by
      ring
    simp [tickSeq, h2]

/-! ### Histories of registry-affecting operations

`Start`, `Pause`, `Resume` and `Stop` never touch the registry (their
definitions above do not mention it); the operations that do are
`CreateTimer` (on the server) and `Destroy` — including the `Destroy` the
tick loop itself performs on auto-destroying completion, which is a
`destroyOp` of the completing timer.  A history is a list of such
operations. -/

/-- One registry-affecting operation: a server-side `CreateTimer` call, or a
`Destroy` call on the timer object with identity `i`. -/
inductive SysOp where
  | createOp (d : TimerData)
  | destroyOp (i : Nat)
  deriving DecidableEq, Repr

/-- Apply one operation to the process state.  `destroyOp i` denotes a
`Destroy` call on the timer object allocated with identity `i` that runs to
completion — per `Destroy` that is exactly the case where the timer holds
no thread when the call executes (otherwise Destroy parks at its yield and
has no registry effect at all), so the timer is passed with `timerThread`
false; only its immutable `Name` matters for the registry effect, and the
creation-time snapshot in the ghost allocation record carries that name.
Destroying a never-allocated identity is a no-op. -/
def sysStep (s : SysState) : SysOp → SysState
  | SysOp.createOp d => (CreateTimer true s d).1
  | SysOp.destroyOp i =>
    match mapGet s.created i with
    | some t => { s with Timers := (Destroy { t with timerThread := false } s.Timers).2.1 }
    | none => s

/-- Run a history from the initial empty state. -/
def sysRun (ops : List SysOp) : SysState := List.foldl sysStep sysInit ops

/-- The operation leaves the registry entry under name `nm` alone, judged
against the allocation record `cr`: it neither creates a timer named `nm`
nor destroys a timer whose (immutable) name is `nm`. -/
def noTouch (cr : List (Nat × TimerInstance)) (nm : String) : SysOp → Prop
  | SysOp.createOp d => d.Name ≠ nm
  | SysOp.destroyOp i => ∀ t, mapGet cr i = some t → t.Name ≠ nm

/-- Registry invariant tying entries to the ghost allocation record: every
allocated identity is below `nextId`, and every registered timer is keyed by
its own name, has an allocated identity below `nextId` that resolves in the
allocation record to a snapshot with the same name. -/
def Inv (s : SysState) : Prop :=
  (∀ p ∈ s.created, p.1 < s.nextId) ∧
  (∀ nm t, mapGet s.Timers nm = some t →
     t.Name = nm ∧ t.id < s.nextId ∧
     ∃ u, mapGet s.created t.id = some u ∧ u.Name = t.Name)

/-- No timer with identity `i` is reachable anywhere in the registry. -/
def Gone (i : Nat) (s : SysState) : Prop :=
  ∀ nm t, mapGet s.Timers nm = some t → t.id ≠ i

theorem destroy_registry_no_thread (t : TimerInstance) (reg : Registry)
    (ht : t.timerThread = false) :
    (Destroy t reg).2.1 = mapDelete reg t.Name := by
  simp [Destroy, ht]

theorem destroy_registry_threaded (t : TimerInstance) (reg : Registry)
    (ht : t.timerThread = true) :
    (Destroy t reg).2.1 = reg := by
  simp [Destroy, ht]

theorem mapGet_mem {α β : Type} [DecidableEq α] :
    ∀ (m : List (α × β)) (k : α) (v : β), mapGet m k = some v → (k, v) ∈ m := by
  intro m
  induction m with
  | nil => intro k v h; simp [mapGet] at h
  | cons p rest ih =>
    intro k v h
    obtain ⟨a, b⟩ := p
    by_cases ha : a = k
    · subst ha
      simp [mapGet] at h
      simp [h]
    · simp [mapGet, ha] at h
      exact List.mem_cons_of_mem _ (ih k v h)

theorem inv_init : Inv sysInit := by
  constructor
  · intro p hp
    simp [sysInit] at hp
  · intro nm t h
    simp [sysInit, mapGet] at h

theorem sysStep_createOp (s : SysState) (d : TimerData) :
    sysStep s (SysOp.createOp d)
      = { nextId := s.nextId + 1
          Timers := mapSet s.Timers d.Name (mkTimer s.nextId d)
          created := (s.nextId, mkTimer s.nextId d) :: s.created } := by
  rfl

theorem sysStep_destroyOp_some (s : SysState) (i : Nat) (u : TimerInstance)
    (hc : mapGet s.created i = some u) :
    sysStep s (SysOp.destroyOp i) = { s with Timers := mapDelete s.Timers u.Name } := by
  simp [sysStep, hc, Destroy]

theorem sysStep_destroyOp_none (s : SysState) (i : Nat)
    (hc : mapGet s.created i = none) :
    sysStep s (SysOp.destroyOp i) = s := by
  simp [sysStep, hc]

theorem inv_step (s : SysState) (op : SysOp) (h : Inv s) : Inv (sysStep s op) := by
  obtain ⟨hcr, hreg⟩ := h
  cases op with
  | createOp d =>
    rw [sysStep_createOp]
    constructor
    · intro p hp
      show p.1 < s.nextId + 1
      rcases List.mem_cons.mp hp with heq | hmem
      · rw [heq]
        exact Nat.lt_succ_self _
      · exact Nat.lt_succ_of_lt (hcr p hmem)
    · intro nm t hget
      rcases mapGet_mapSet_some hget with ⟨hnm, hval⟩ | hold
      · subst hnm
        subst hval
        refine ⟨rfl, Nat.lt_succ_self _, mkTimer s.nextId d, ?_, rfl⟩
        show mapGet ((s.nextId, mkTimer s.nextId d) :: s.created) s.nextId = _
        simp [mapGet]
      · obtain ⟨h1, h2, u, h3, h4⟩ := hreg nm t hold
        refine ⟨h1, Nat.lt_succ_of_lt h2, u, ?_, h4⟩
        show mapGet ((s.nextId, mkTimer s.nextId d) :: s.created) t.id = some u
        have hne : s.nextId ≠ t.id := Nat.ne_of_gt h2
        simp [mapGet, hne, h3]
  | destroyOp i =>
    cases hc : mapGet s.created i with
    | none =>
      rw [sysStep_destroyOp_none s i hc]
      exact ⟨hcr, hreg⟩
    | some u =>
      rw [sysStep_destroyOp_some s i u hc]
      constructor
      · intro p hp
        exact hcr p hp
      · intro nm t hget
        obtain ⟨hold, hne⟩ := mapGet_mapDelete_some hget
        exact hreg nm t hold

theorem nextId_step (s : SysState) (op : SysOp) : s.nextId ≤ (sysStep s op).nextId := by
  cases op with
  | createOp d =>
    rw [sysStep_createOp]
    exact Nat.le_succ _
  | destroyOp i =>
    cases hc : mapGet s.created i with
    | none => rw [sysStep_destroyOp_none s i hc]
    | some u => rw [sysStep_destroyOp_some s i u hc]

theorem gone_establish (s : SysState) (i : Nat) (h : Inv s) :
    Gone i (sysStep s (SysOp.destroyOp i)) := by
  obtain ⟨hcr, hreg⟩ := h
  intro nm t hget
  cases hc : mapGet s.created i with
  | none =>
    rw [sysStep_destroyOp_none s i hc] at hget
    obtain ⟨h1, h2, u, h3, h4⟩ := hreg nm t hget
    intro hid
    rw [hid, hc] at h3
    exact Option.noConfusion h3
  | some u =>
    rw [sysStep_destroyOp_some s i u hc] at hget
    obtain ⟨hold, hne⟩ := mapGet_mapDelete_some hget
    obtain ⟨h1, h2, v, h3, h4⟩ := hreg nm t hold
    intro hid
    rw [hid, hc] at h3
    obtain rfl : u = v := Option.some_inj.mp h3
    exact hne ((h4.trans h1).symm)

theorem gone_step (s : SysState) (op : SysOp) (i : Nat)
    (hi : i < s.nextId) (hg : Gone i s) : Gone i (sysStep s op) := by
  intro nm t hget
  cases op with
  | createOp d =>
    rw [sysStep_createOp] at hget
    rcases mapGet_mapSet_some hget with ⟨hnm, hval⟩ | hold
    · subst hval
      show (mkTimer s.nextId d).id ≠ i
      exact Nat.ne_of_gt hi
    · exact hg nm t hold
  | destroyOp j =>
    cases hc : mapGet s.created j with
    | none =>
      rw [sysStep_destroyOp_none s j hc] at hget
      exact hg nm t hget
    | some u =>
      rw [sysStep_destroyOp_some s j u hc] at hget
      obtain ⟨hold, hne2⟩ := mapGet_mapDelete_some hget
      exact hg nm t hold

theorem inv_foldl (ops : List SysOp) : ∀ (s : SysState), Inv s →
    Inv (List.foldl sysStep s ops) := by
  induction ops with
  | nil => intro s h; simpa using h
  | cons op rest ih =>
    intro s h
    rw [List.foldl_cons]
    exact ih _ (inv_step s op h)

theorem gone_foldl (ops : List SysOp) : ∀ (s : SysState) (i : Nat),
    Inv s → i < s.nextId → Gone i s → Gone i (List.foldl sysStep s ops) := by
  induction ops with
  | nil => intro s i _ _ hg; simpa using hg
  | cons op rest ih =>
    intro s i hinv hi hg
    rw [List.foldl_cons]
    exact ih _ i (inv_step s op hinv) (Nat.lt_of_lt_of_le hi (nextId_step s op))
      (gone_step s op i hi hg)

theorem persist_foldl (ops : List SysOp) : ∀ (s : SysState) (nm : String) (t : TimerInstance),
    mapGet s.Timers nm = some t →
    (∀ op ∈ ops, noTouch s.created nm op) →
    mapGet (List.foldl sysStep s ops).Timers nm = some t := by
  induction ops with
  | nil => intro s nm t h _; simpa using h
  | cons op rest ih =>
    intro s nm t h hops
    have hop := hops op (List.mem_cons_self op rest)
    have hrest : ∀ op2 ∈ rest, noTouch s.created nm op2 :=
      fun op2 h2 => hops op2 (List.mem_cons_of_mem op h2)
    rw [List.foldl_cons]
    cases op with
    | createOp d =>
      rw [sysStep_createOp]
      apply ih
      · show mapGet (mapSet s.Timers d.Name (mkTimer s.nextId d)) nm = some t
        rw [mapGet_mapSet_ne _ _ _ _ hop]
        exact h
      · intro op2 hmem
        have hn := hrest op2 hmem
        cases op2 with
        | createOp d2 => exact hn
        | destroyOp j =>
          intro u hu
          have hu2 : mapGet ((s.nextId, mkTimer s.nextId d) :: s.created) j = some u := hu
          by_cases hj : s.nextId = j
          · subst hj
            simp [mapGet] at hu2
            rw [← hu2]
            exact hop
          · simp [mapGet, hj] at hu2
            exact hn u hu2
    | destroyOp i =>
      cases hc : mapGet s.created i with
      | none =>
        rw [sysStep_destroyOp_none s i hc]
        exact ih s nm t h hrest
      | some u =>
        have hu : u.Name ≠ nm := hop u hc
        rw [sysStep_destroyOp_some s i u hc]
        apply ih
        · show mapGet (mapDelete s.Timers u.Name) nm = some t
          rw [mapGet_mapDelete_ne _ _ _ hu]
          exact h
        · show ∀ op2 ∈ rest, noTouch s.created nm op2
          exact hrest

theorem destroy_trace_counts (t : TimerInstance) (reg : Registry) :
    tickPayloads (Destroy t reg).2.2.1 = [] ∧
    countWaits (Destroy t reg).2.2.1 = 0 ∧
    countCompleted (Destroy t reg).2.2.1 = 0 ∧
    List.countP isFireEvent (Destroy t reg).2.2.1 = 0 := by
  cases ht : t.timerThread <;>
    simp [Destroy, ht, tickPayloads, countWaits, countCompleted, isFireEvent]

/-! ### Behaviour of a full uninterrupted run -/

theorem run_final_nonpos (t : TimerInstance) (n : Nat)
    (htk : 0 < t.Tick) (hn : n = (Int.ceil (t.RemainingTime / t.Tick)).toNat) :
    t.RemainingTime - (n : Rat) * t.Tick ≤ 0 := by
  by_cases hR : 0 < t.RemainingTime
  · have hc0 : (0 : Int) ≤ Int.ceil (t.RemainingTime / t.Tick) := by
      have := Int.ceil_pos.mpr (div_pos hR htk)
      omega
    have hint : ((n : Nat) : Int) = Int.ceil (t.RemainingTime / t.Tick) := by
      rw [hn]
      exact Int.toNat_of_nonneg hc0
    have hle : t.RemainingTime / t.Tick ≤ (n : Rat) := by
      have h1 := Int.le_ceil (t.RemainingTime / t.Tick)
      have h2 : ((Int.ceil (t.RemainingTime / t.Tick) : Int) : Rat) = ((n : Nat) : Rat) := by
        rw [← hint]
        push_cast
        rfl
      rw [h2] at h1
      exact h1
    have h3 := (div_le_iff₀ htk).mp hle
    linarith
  · push_neg at hR
    have h4 : (0 : Rat) ≤ (n : Rat) * t.Tick :=
      mul_nonneg (Nat.cast_nonneg n) (le_of_lt htk)
    linarith

theorem run_counts_of_running (t : TimerInstance) (reg : Registry) (n : Nat)
    (hst : t.Status = TimerStatus.running) (htk : 0 < t.Tick)
    (hn : n = (Int.ceil (t.RemainingTime / t.Tick)).toNat) :
    countWaits (run n t reg).2.2 = n ∧
    tickPayloads (run n t reg).2.2
      = tickSeq n t.RemainingTime t.Tick ++ [t.RemainingTime - (n : Rat) * t.Tick] ∧
    countCompleted (run n t reg).2.2 = 1 ∧
    Ev.statusChangedFire TimerStatus.completed ∈ (run n t reg).2.2 := by
  have hloop := runLoop_spec n n t hst htk hn.symm (le_refl n)
  have hfin := run_final_nonpos t n htk hn
  simp only [run, hloop]
  rw [if_pos (⟨hfin, hst⟩ :
    ({ t with RemainingTime := t.RemainingTime - (n : Rat) * t.Tick } :
      TimerInstance).RemainingTime ≤ 0 ∧
    ({ t with RemainingTime := t.RemainingTime - (n : Rat) * t.Tick } :
      TimerInstance).Status = TimerStatus.running)]
  cases hAD : t.AutoDestroy with
  | true =>
    rw [if_pos rfl]
    obtain ⟨hp, hw, hcc, hfire⟩ := destroy_trace_counts
      { id := t.id, Name := t.Name, Duration := t.Duration, Tick := t.Tick,
        RemainingTime := t.RemainingTime - (n : Rat) * t.Tick, AutoDestroy := true,
        Status := TimerStatus.completed, completedAlive := t.completedAlive,
        statusChangedAlive := t.statusChangedAlive, onTickAlive := t.onTickAlive,
        timerThread := t.timerThread } reg
    refine ⟨?_, ?_, ?_, ?_⟩
    · rw [countWaits_append, countWaits_append, countWaits_loopTrace, hw]
      simp [countWaits]
    · rw [tickPayloads_append, tickPayloads_append, tickPayloads_loopTrace, hp]
      simp [tickPayloads]
    · rw [countCompleted_append, countCompleted_append, countCompleted_loopTrace, hcc]
      simp [countCompleted]
    · simp
  | false =>
    rw [if_neg Bool.false_ne_true]
    refine ⟨?_, ?_, ?_, ?_⟩
    · rw [countWaits_append, countWaits_loopTrace]
      simp [countWaits]
    · rw [tickPayloads_append, tickPayloads_loopTrace]
      simp [tickPayloads]
    · rw [countCompleted_append, countCompleted_loopTrace]
      simp [countCompleted]
    · simp

/-! ### Concrete sample data for witnesses and counterexamples -/

/-- The configuration of the spec's concrete scenario: name T1, duration 3,
tick interval 1, autoDestroy explicitly false. -/
def t1Data : TimerData :=
  { Name := "T1", Duration := 3, Tick := some 1, AutoDestroy := some false }

/-- A configuration named X with all optional fields absent. -/
def xData : TimerData :=
  { Name := "X", Duration := 5, Tick := none, AutoDestroy := none }

/-- A concrete running timer holding a live tick-loop thread. -/
def sampleRunning : TimerInstance :=
  { id := 5, Name := "S", Duration := 3, Tick := 1, RemainingTime := 2,
    AutoDestroy := true, Status := TimerStatus.running, completedAlive := true,
    statusChangedAlive := true, onTickAlive := true, timerThread := true }

/-- A concrete running timer whose remaining time is already exhausted
(negative, as when the tick interval does not divide the duration). -/
def sampleExhausted : TimerInstance :=
  { id := 7, Name := "E", Duration := 3, Tick := 2, RemainingTime := -1,
    AutoDestroy := true, Status := TimerStatus.running, completedAlive := true,
    statusChangedAlive := true, onTickAlive := true, timerThread := true }

/-- A concrete stopped timer with full remaining time, tick interval 2 not
dividing duration 3. -/
def sampleStopped : TimerInstance :=
  mkTimer 0 { Name := "W4", Duration := 3, Tick := some 2, AutoDestroy := some false }

/-! ### The claims -/

/-- C1: the claim asserts that a timer created with autoDestroy explicitly
false, on reaching Completed naturally, does not invoke Destroy and remains
in the registry.  The source computes `AutoDestroy: AutoDestroy || true`
(line 57), which evaluates to `true` even for an explicit `false`, so the
completion branch of the tick loop (lines 194-198) invokes Destroy after
all: on the spec's own scenario `Name "T1", Duration 3, Tick 1, AutoDestroy
false`, the effective AutoDestroy flag is true and the run trace contains
Destroy's observable work — the destruction of the `completed` and
`statusChanged` BindableEvents and the parking yield — leaving the
`completed` channel dead.  The timer does remain registered and lookup of
"T1" still succeeds, but only because the invoked Destroy, called from the
tick-loop thread with `timerThread` set, parks forever at coroutine.yield
(line 137) before reaching `Timers.delete` — not because Destroy was
skipped as the claim asserts. -/
theorem C1_autodestroy_false_is_ignored :
    (mkTimer 0 t1Data).AutoDestroy = true ∧
    Ev.destroyChannel Chan.completedC
      ∈ (run 3 (Start (mkTimer 0 t1Data)).1 (CreateTimer true sysInit t1Data).1.Timers).2.2 ∧
    Ev.yieldThread
      ∈ (run 3 (Start (mkTimer 0 t1Data)).1 (CreateTimer true sysInit t1Data).1.Timers).2.2 ∧
    (run 3 (Start (mkTimer 0 t1Data)).1 (CreateTimer true sysInit t1Data).1.Timers).1.completedAlive
      = false ∧
    mapGet (run 3 (Start (mkTimer 0 t1Data)).1 (CreateTimer true sysInit t1Data).1.Timers).2.1
      "T1" = some (mkTimer 0 t1Data) := by
  refine ⟨by decide, ?_, ?_, ?_, ?_⟩ <;>
    norm_num +decide [run, runLoop, Start, Destroy, mkTimer, t1Data, jsOrNum, jsOrBool,
      CreateTimer, sysInit, mapSet, mapGet, mapDelete]

/-- C2 counterexample: the claim says Destroy releases all three
notification channels, cancels the in-flight tick loop, and removes the
timer from the registry so lookup fails.  On a concrete running timer
holding a thread: the onTick BindableEvent is still alive afterwards (the
source, lines 131-134, never destroys it); the call parks at
coroutine.yield (line 137) without completing, so no cancellation appears
in its trace; and the registry still holds the entry — lookup by the name
still succeeds. -/
theorem C2_counterexample_onTick_not_released :
    (Destroy sampleRunning [("S", sampleRunning)]).1.onTickAlive = true ∧
    (Destroy sampleRunning [("S", sampleRunning)]).2.2.2 = false ∧
    Ev.cancelThread ∉ (Destroy sampleRunning [("S", sampleRunning)]).2.2.1 ∧
    mapGet (Destroy sampleRunning [("S", sampleRunning)]).2.1 "S"
      = some sampleRunning := by
  decide

/-- C2 (amended): for every timer, Destroy sets status to Stopped, releases
the onCompleted and onStatusChanged channels — never onTick, whose liveness
is left untouched — and itself publishes nothing on any channel.  When the
timer holds no in-flight tick loop, Destroy runs to completion and removes
the timer's name from the registry, so a subsequent lookup of that name
fails.  When a tick loop is in flight, Destroy parks forever at the
coroutine.yield before task.cancel: the loop is not cancelled, the thread
stays recorded, the registry entry survives, and the method never
returns. -/
theorem C2_destroy_effects (t u : TimerInstance) (reg regu : Registry)
    (ht : t.timerThread = false) (hu : u.timerThread = true) :
    (Destroy t reg).1.Status = TimerStatus.stopped ∧
    (Destroy t reg).1.completedAlive = false ∧
    (Destroy t reg).1.statusChangedAlive = false ∧
    (Destroy t reg).1.onTickAlive = t.onTickAlive ∧
    List.countP isFireEvent (Destroy t reg).2.2.1 = 0 ∧
    (Destroy t reg).2.2.2 = true ∧
    mapGet (Destroy t reg).2.1 t.Name = none ∧
    (Destroy u regu).1.Status = TimerStatus.stopped ∧
    (Destroy u regu).1.completedAlive = false ∧
    (Destroy u regu).1.statusChangedAlive = false ∧
    (Destroy u regu).1.onTickAlive = u.onTickAlive ∧
    List.countP isFireEvent (Destroy u regu).2.2.1 = 0 ∧
    (Destroy u regu).2.2.2 = false ∧
    (Destroy u regu).2.1 = regu ∧
    (Destroy u regu).1.timerThread = true ∧
    Ev.cancelThread ∉ (Destroy u regu).2.2.1 := by
  simp [Destroy, ht, hu, isFireEvent, mapGet_mapDelete_self]

/-- C2 witness: the amended statement at a concrete thread-free timer and a
concrete running timer holding a thread. -/
theorem C2_destroy_effects_witness :
    sampleStopped.timerThread = false ∧ sampleRunning.timerThread = true ∧
    ((Destroy sampleStopped []).1.Status = TimerStatus.stopped ∧
     (Destroy sampleStopped []).1.completedAlive = false ∧
     (Destroy sampleStopped []).1.statusChangedAlive = false ∧
     (Destroy sampleStopped []).1.onTickAlive = sampleStopped.onTickAlive ∧
     List.countP isFireEvent (Destroy sampleStopped []).2.2.1 = 0 ∧
     (Destroy sampleStopped []).2.2.2 = true ∧
     mapGet (Destroy sampleStopped []).2.1 sampleStopped.Name = none ∧
     (Destroy sampleRunning [("S", sampleRunning)]).1.Status = TimerStatus.stopped ∧
     (Destroy sampleRunning [("S", sampleRunning)]).1.completedAlive = false ∧
     (Destroy sampleRunning [("S", sampleRunning)]).1.statusChangedAlive = false ∧
     (Destroy sampleRunning [("S", sampleRunning)]).1.onTickAlive = sampleRunning.onTickAlive ∧
     List.countP isFireEvent (Destroy sampleRunning [("S", sampleRunning)]).2.2.1 = 0 ∧
     (Destroy sampleRunning [("S", sampleRunning)]).2.2.2 = false ∧
     (Destroy sampleRunning [("S", sampleRunning)]).2.1 = [("S", sampleRunning)] ∧
     (Destroy sampleRunning [("S", sampleRunning)]).1.timerThread = true ∧
     Ev.cancelThread ∉ (Destroy sampleRunning [("S", sampleRunning)]).2.2.1) :=
  ⟨by decide, by decide,
   C2_destroy_effects sampleStopped sampleRunning [] [("S", sampleRunning)]
     (by decide) (by decide)⟩

/-- C3 counterexample: on a concrete running timer with a live thread,
(i) Pause's trace publishes statusChanged first and cancels the thread
second (source lines 95-102 fire before cancelling), so the cancellation
does not precede the observable state change; and (ii) Destroy never
cancels at all — its trace has no cancellation, since the call parks at
coroutine.yield (line 137) before task.cancel — and the surviving loop,
waking from its task.wait, fires one further onTick after the Destroy call,
contradicting the claim that no onTick from the old loop can be observed
after Destroy. -/
theorem C3_counterexample_cancel_after_statusChanged :
    (Pause sampleRunning).2
      = [Ev.statusChangedFire TimerStatus.paused, Ev.cancelThread] ∧
    cancelBeforeStatusChange (Pause sampleRunning).2 = false ∧
    Ev.cancelThread ∉ (Destroy sampleRunning []).2.2.1 ∧
    (resumeIteration 0 (Destroy sampleRunning []).1).2
      = [Ev.tickFire (Destroy sampleRunning []).1.RemainingTime] := by
  decide

/-- C3 (amended): of the transitions that leave Running, Pause and Stop do
cancel the in-flight tick-loop thread before the method returns — though
after the statusChanged publication, not before the state change is
observable — and publish no onTick or onCompleted, so no notification from
the old loop can be observed once a Pause or Stop call returns.  Destroy
does not: with a thread in flight it parks at the coroutine.yield before
task.cancel, so the thread is never cancelled or cleared, the call never
returns, and the surviving loop on its next wakeup fires exactly one
further onTick (the mid-loop status check then breaks out without firing
completion, since Destroy had already set the status to Stopped). -/
theorem C3_leaving_running_cancels (t : TimerInstance) (reg : Registry) (fuel : Nat)
    (h1 : t.Status = TimerStatus.running) (h2 : t.timerThread = true) :
    (Pause t).1.timerThread = false ∧ Ev.cancelThread ∈ (Pause t).2 ∧
    List.countP isTickOrCompletedFire (Pause t).2 = 0 ∧
    (Stop t).1.timerThread = false ∧ Ev.cancelThread ∈ (Stop t).2 ∧
    List.countP isTickOrCompletedFire (Stop t).2 = 0 ∧
    (Destroy t reg).2.2.2 = false ∧
    (Destroy t reg).1.timerThread = true ∧
    Ev.cancelThread ∉ (Destroy t reg).2.2.1 ∧
    (resumeIteration fuel (Destroy t reg).1).2
      = [Ev.tickFire (Destroy t reg).1.RemainingTime] := by
  simp [Pause, Stop, Destroy, resumeIteration, h1, h2, isTickOrCompletedFire]

/-- C3 witness: the amended statement holds on a concrete running timer. -/
theorem C3_leaving_running_cancels_witness :
    sampleRunning.Status = TimerStatus.running ∧ sampleRunning.timerThread = true ∧
    ((Pause sampleRunning).1.timerThread = false ∧
     Ev.cancelThread ∈ (Pause sampleRunning).2 ∧
     List.countP isTickOrCompletedFire (Pause sampleRunning).2 = 0 ∧
     (Stop sampleRunning).1.timerThread = false ∧
     Ev.cancelThread ∈ (Stop sampleRunning).2 ∧
     List.countP isTickOrCompletedFire (Stop sampleRunning).2 = 0 ∧
     (Destroy sampleRunning []).2.2.2 = false ∧
     (Destroy sampleRunning []).1.timerThread = true ∧
     Ev.cancelThread ∉ (Destroy sampleRunning []).2.2.1 ∧
     (resumeIteration 1 (Destroy sampleRunning []).1).2
       = [Ev.tickFire (Destroy sampleRunning []).1.RemainingTime]) :=
  ⟨by decide, by decide,
   C3_leaving_running_cancels sampleRunning [] 1 (by decide) (by decide)⟩

/-- C4: a timer started from Stopped with full remaining time, duration
D > 0 and tick interval T > 0, left uninterrupted, suspends exactly
⌈D/T⌉ times, publishes onTick exactly ⌈D/T⌉+1 times with the values
D, D-T, D-2T, ... ending in the terminal (possibly non-positive) value,
publishes exactly one onCompleted, and reaches Completed (a statusChanged
publication records status Completed). -/
theorem C4_uninterrupted_start_completes (t : TimerInstance) (reg : Registry)
    (hs : t.Status = TimerStatus.stopped) (_hd : 0 < t.Duration)
    (htk : 0 < t.Tick) (hr : t.RemainingTime = t.Duration) :
    countWaits (uninterruptedTrace t reg) = ceilTicks t.Duration t.Tick ∧
    tickPayloads (uninterruptedTrace t reg)
      = tickSeq (ceilTicks t.Duration t.Tick + 1) t.Duration t.Tick ∧
    countCompleted (uninterruptedTrace t reg) = 1 ∧
    Ev.statusChangedFire TimerStatus.completed ∈ uninterruptedTrace t reg := by
  have hne : ¬ (t.Status = TimerStatus.running) := by
    rw [hs]
    intro hx
    exact TimerStatus.noConfusion hx
  have hstart : Start t
      = ({ t with Status := TimerStatus.running, timerThread := true },
         [Ev.spawn, Ev.statusChangedFire TimerStatus.running]) := by
    rw [Start, if_neg hne]
  have hrun := run_counts_of_running
    { t with Status := TimerStatus.running, timerThread := true } reg
    (ceilTicks t.Duration t.Tick) rfl htk
    (by show ceilTicks t.Duration t.Tick = (Int.ceil (t.RemainingTime / t.Tick)).toNat
        rw [hr]
        rfl)
  obtain ⟨hw, hp, hc, hm⟩ := hrun
  have htr : uninterruptedTrace t reg
      = [Ev.spawn, Ev.statusChangedFire TimerStatus.running]
        ++ (run (ceilTicks t.Duration t.Tick)
             { t with Status := TimerStatus.running, timerThread := true } reg).2.2 := by
    rw [uninterruptedTrace, uninterruptedRun, hstart]
  rw [htr]
  refine ⟨?_, ?_, ?_, ?_⟩
  · rw [countWaits_append, hw]
    simp [countWaits]
  · rw [tickPayloads_append, hp, hr, tickSeq_snoc]
    simp [tickPayloads]
  · rw [countCompleted_append, hc]
    simp [countCompleted]
  · simp [hm]

/-- C4 witness: the statement holds on the concrete stopped timer with
duration 3 and tick interval 2 (two suspensions, three onTick events). -/
theorem C4_uninterrupted_start_completes_witness :
    sampleStopped.Status = TimerStatus.stopped ∧ 0 < sampleStopped.Duration ∧
    0 < sampleStopped.Tick ∧ sampleStopped.RemainingTime = sampleStopped.Duration ∧
    (countWaits (uninterruptedTrace sampleStopped []) = ceilTicks sampleStopped.Duration sampleStopped.Tick ∧
     tickPayloads (uninterruptedTrace sampleStopped [])
       = tickSeq (ceilTicks sampleStopped.Duration sampleStopped.Tick + 1)
           sampleStopped.Duration sampleStopped.Tick ∧
     countCompleted (uninterruptedTrace sampleStopped []) = 1 ∧
     Ev.statusChangedFire TimerStatus.completed ∈ uninterruptedTrace sampleStopped []) :=
  ⟨by decide, by decide, by decide, by decide,
   C4_uninterrupted_start_completes sampleStopped [] (by decide) (by decide) (by decide)
     (by decide)⟩

/-- C5: when the tick loop exits with remaining time exhausted while the
status is still Running, the run publishes, in this order, onCompleted, then
onStatusChanged (recording status Completed), then a final onTick carrying
the current remaining time unclamped (possibly zero or negative), and only
after those does it invoke Destroy — exactly when AutoDestroy is set. -/
theorem C5_completion_order (t : TimerInstance) (reg : Registry) (fuel : Nat)
    (h1 : t.RemainingTime ≤ 0) (h2 : t.Status = TimerStatus.running) :
    (run fuel t reg).2.2
      = [Ev.completedFire, Ev.statusChangedFire TimerStatus.completed,
         Ev.tickFire t.RemainingTime]
        ++ (if t.AutoDestroy then
              (Destroy { t with Status := TimerStatus.completed } reg).2.2.1
            else []) := by
  have hloop := runLoop_of_guard_false fuel t (by rintro ⟨hp, _⟩; linarith)
  simp only [run, hloop]
  rw [if_pos ⟨h1, h2⟩]
  cases hAD : t.AutoDestroy with
  | true =>
    rw [if_pos rfl, if_pos rfl]
    simp
  | false =>
    rw [if_neg Bool.false_ne_true, if_neg Bool.false_ne_true]
    simp

/-- C5 witness: the completion order holds on a concrete running timer whose
remaining time is already negative (tick 2 on duration 3), exhibiting the
unclamped final onTick payload. -/
theorem C5_completion_order_witness :
    sampleExhausted.RemainingTime ≤ 0 ∧
    sampleExhausted.Status = TimerStatus.running ∧
    (run 0 sampleExhausted []).2.2
      = [Ev.completedFire, Ev.statusChangedFire TimerStatus.completed,
         Ev.tickFire sampleExhausted.RemainingTime]
        ++ (if sampleExhausted.AutoDestroy then
              (Destroy { sampleExhausted with Status := TimerStatus.completed } []).2.2.1
            else []) :=
  ⟨by decide, by decide, C5_completion_order sampleExhausted [] 0 (by decide) (by decide)⟩

/-- C6: on a timer in any state other than Stopped, Stop sets status to
Stopped, resets remainingTime to duration regardless of progress, clears the
tick-loop thread, and publishes statusChanged; on an already-Stopped timer,
Stop returns the timer unchanged and publishes nothing. -/
theorem C6_stop_resets (t u : TimerInstance)
    (ht : t.Status ≠ TimerStatus.stopped) (hu : u.Status = TimerStatus.stopped) :
    (Stop t).1.Status = TimerStatus.stopped ∧
    (Stop t).1.RemainingTime = t.Duration ∧
    (Stop t).1.timerThread = false ∧
    Ev.statusChangedFire TimerStatus.stopped ∈ (Stop t).2 ∧
    Stop u = (u, []) := by
  cases hth : t.timerThread <;> simp [Stop, ht, hu, hth]

/-- C6 witness: Stop on a concrete running timer mid-countdown, and on a
concrete stopped timer. -/
theorem C6_stop_resets_witness :
    sampleRunning.Status ≠ TimerStatus.stopped ∧
    sampleStopped.Status = TimerStatus.stopped ∧
    ((Stop sampleRunning).1.Status = TimerStatus.stopped ∧
     (Stop sampleRunning).1.RemainingTime = sampleRunning.Duration ∧
     (Stop sampleRunning).1.timerThread = false ∧
     Ev.statusChangedFire TimerStatus.stopped ∈ (Stop sampleRunning).2 ∧
     Stop sampleStopped = (sampleStopped, [])) :=
  ⟨by decide, by decide, C6_stop_resets sampleRunning sampleStopped (by decide) (by decide)⟩

/-- C7 counterexample: the claim says every timer stays reachable by its
name until its own Destroy completes, even when other timers are created
with the same name in between.  After the history
[create "X", create "X"] the first timer (identity 0) was never destroyed,
yet the lookup of "X" returns the second timer (identity 1), not the first:
the first create's timer is already unreachable. -/
theorem C7_counterexample_overwrite_evicts :
    mapGet (sysRun [SysOp.createOp xData, SysOp.createOp xData]).Timers "X"
      = some (mkTimer 1 xData) ∧
    mkTimer 1 xData ≠ mkTimer 0 xData := by
  decide

/-- C7 (amended): a timer is present in the registry and reachable by its
name from the moment CreateTimer returns until its Destroy completes,
provided no other operation touches that name in between (creating another
timer under the same name — or destroying a same-named timer — evicts it
early, as the counterexample shows); and after its Destroy completes it is
never again reachable: no continuation of the history makes any registry
lookup return a timer with its identity. -/
theorem C7_registry_lifetime :
    (∀ (ops1 ops2 : List SysOp) (d : TimerData),
       (∀ op ∈ ops2, noTouch (sysRun (ops1 ++ [SysOp.createOp d])).created d.Name op) →
       mapGet (sysRun (ops1 ++ SysOp.createOp d :: ops2)).Timers d.Name
         = some (mkTimer (sysRun ops1).nextId d)) ∧
    (∀ (ops1 ops2 : List SysOp) (i : Nat) (nm : String) (t : TimerInstance),
       i < (sysRun ops1).nextId →
       mapGet (sysRun (ops1 ++ SysOp.destroyOp i :: ops2)).Timers nm = some t →
       t.id ≠ i) := by
  constructor
  · intro ops1 ops2 d hops
    have hsplit : sysRun (ops1 ++ SysOp.createOp d :: ops2)
        = List.foldl sysStep (sysStep (sysRun ops1) (SysOp.createOp d)) ops2 := by
      rw [sysRun, List.foldl_append, List.foldl_cons]
      rfl
    have hcreated : sysRun (ops1 ++ [SysOp.createOp d])
        = sysStep (sysRun ops1) (SysOp.createOp d) := by
      rw [sysRun, List.foldl_append, List.foldl_cons, List.foldl_nil]
      rfl
    rw [hsplit]
    apply persist_foldl
    · rw [sysStep_createOp]
      exact mapGet_mapSet_self _ _ _
    · rw [← hcreated]
      exact hops
  · intro ops1 ops2 i nm t hi hget
    have hsplit : sysRun (ops1 ++ SysOp.destroyOp i :: ops2)
        = List.foldl sysStep (sysStep (sysRun ops1) (SysOp.destroyOp i)) ops2 := by
      rw [sysRun, List.foldl_append, List.foldl_cons]
      rfl
    rw [hsplit] at hget
    have hinv1 : Inv (sysRun ops1) := inv_foldl ops1 sysInit inv_init
    have hinv2 : Inv (sysStep (sysRun ops1) (SysOp.destroyOp i)) :=
      inv_step _ _ hinv1
    have hi2 : i < (sysStep (sysRun ops1) (SysOp.destroyOp i)).nextId :=
      Nat.lt_of_lt_of_le hi (nextId_step _ _)
    have hgone : Gone i (sysStep (sysRun ops1) (SysOp.destroyOp i)) :=
      gone_establish (sysRun ops1) i hinv1
    exact gone_foldl ops2 _ i hinv2 hi2 hgone nm t hget

/-- C7 witness: both halves of the amended statement at concrete inputs —
a single create with nothing after it remains reachable, and after
destroying identity 0 no later lookup (even after re-creating the name)
returns a timer with identity 0. -/
theorem C7_registry_lifetime_witness :
    mapGet (sysRun ([] ++ SysOp.createOp xData :: [])).Timers xData.Name
      = some (mkTimer (sysRun []).nextId xData) ∧
    (0 < (sysRun [SysOp.createOp xData]).nextId ∧
     mapGet (sysRun ([SysOp.createOp xData] ++ SysOp.destroyOp 0 :: [SysOp.createOp xData])).Timers
       "X" = some (mkTimer 1 xData) ∧
     (mkTimer 1 xData).id ≠ 0) :=
  ⟨C7_registry_lifetime.1 [] [] xData (by intro op hop; exact absurd hop (List.not_mem_nil op)),
   by decide, by decide,
   C7_registry_lifetime.2 [SysOp.createOp xData] [SysOp.createOp xData] 0 "X"
     (mkTimer 1 xData) (by decide) (by decide)⟩

/-- C8: creating a timer under a name that already has a registry entry
silently overwrites it: both calls succeed (no error), the registry
afterwards holds the second timer under that name, and the second timer is
a different object from the first (fresh identity), so the first is no
longer what lookup by that name returns. -/
theorem C8_same_name_overwrites (st : SysState) (d1 d2 : TimerData)
    (h : d1.Name = d2.Name) :
    (CreateTimer true st d1).2 = Except.ok (mkTimer st.nextId d1) ∧
    (CreateTimer true (CreateTimer true st d1).1 d2).2
      = Except.ok (mkTimer (st.nextId + 1) d2) ∧
    mapGet (CreateTimer true (CreateTimer true st d1).1 d2).1.Timers d1.Name
      = some (mkTimer (st.nextId + 1) d2) ∧
    mkTimer (st.nextId + 1) d2 ≠ mkTimer st.nextId d1 := by
  refine ⟨rfl, rfl, ?_, ?_⟩
  · rw [h]
    exact mapGet_mapSet_self _ _ _
  · intro heq
    have hid := congrArg TimerInstance.id heq
    simp [mkTimer] at hid

/-- C8 witness: two concrete creates under the same name "X". -/
theorem C8_same_name_overwrites_witness :
    xData.Name = xData.Name ∧
    ((CreateTimer true sysInit xData).2 = Except.ok (mkTimer sysInit.nextId xData) ∧
     (CreateTimer true (CreateTimer true sysInit xData).1 xData).2
       = Except.ok (mkTimer (sysInit.nextId + 1) xData) ∧
     mapGet (CreateTimer true (CreateTimer true sysInit xData).1 xData).1.Timers xData.Name
       = some (mkTimer (sysInit.nextId + 1) xData) ∧
     mkTimer (sysInit.nextId + 1) xData ≠ mkTimer sysInit.nextId xData) :=
  ⟨rfl, C8_same_name_overwrites sysInit xData xData rfl⟩

/-- C9: CreateTimer invoked outside the server context fails with the error
"Timers have to be created on the server" and returns the state unchanged:
no timer is registered, partially or otherwise. -/
theorem C9_client_create_fails (st : SysState) (d : TimerData) :
    CreateTimer false st d
      = (st, Except.error "Timers have to be created on the server") := by
  rfl

/-- C10: Copy duplicates the source timer's Status verbatim while holding no
thread, so the copy of a Running timer reports Running with no scheduled
work; Start on that copy hits the already-Running guard and returns the copy
unchanged with no events (no spawn), and Resume is likewise a no-op, so the
copy cannot begin ticking until Stop or Pause first moves it out of
Running. -/
theorem C10_copy_running_is_stuck (t : TimerInstance) (fid : Nat)
    (h : t.Status = TimerStatus.running) :
    (Copy t fid).Status = t.Status ∧
    (Copy t fid).timerThread = false ∧
    Start (Copy t fid) = (Copy t fid, []) ∧
    Resume (Copy t fid) = (Copy t fid, []) := by
  refine ⟨rfl, rfl, ?_, ?_⟩
  · rw [Start, if_pos]
    show (Copy t fid).Status = TimerStatus.running
    rw [show (Copy t fid).Status = t.Status from rfl, h]
  · rw [Resume, if_pos]
    intro hx
    have : t.Status = TimerStatus.paused := hx
    rw [h] at this
    exact TimerStatus.noConfusion this

/-- C10 witness: the statement on a concrete running timer. -/
theorem C10_copy_running_is_stuck_witness :
    sampleRunning.Status = TimerStatus.running ∧
    ((Copy sampleRunning 9).Status = sampleRunning.Status ∧
     (Copy sampleRunning 9).timerThread = false ∧
     Start (Copy sampleRunning 9) = (Copy sampleRunning 9, []) ∧
     Resume (Copy sampleRunning 9) = (Copy sampleRunning 9, [])) :=
  ⟨by decide, C10_copy_running_is_stuck sampleRunning 9 (by decide)⟩

end SimpleTimer
